import Mathlib

/-!
Shallow embedding of `src/chatbot/chatbot.py`, a line-oriented chat
responder.  The file carries a stray Java header (`package chatbot;` and
Java `import` lines), but its executable body is the Python script the
specification describes: an optional DialoGPT model load inside a
`try`/`except ImportError` block, a fixed list of canned responses, a
`generate_response` function, and a `while True` read-generate-print loop
that breaks on `EOFError`.

External effects are made explicit: the model pipeline (encode, generate,
decode) is a parameter `modelReply`, random draws are a parameter `k`, and
exceptions are `Except` values.  Stdout is modelled as lists of printed
lines, and the whole run as a trace of load/read/print events.
-/

namespace Chatbot

/-- Python exception values the script can raise: a `NameError` for an
unbound name, or any other exception carrying its `str(e)` message. -/
inductive PyErr where
  | nameError (n : String)
  | exc (m : String)
deriving DecidableEq

/-- The message `str(e)` of an exception, as interpolated into the
script's f-strings. -/
def PyErr.msg : PyErr → String
  | .nameError n => "name \x27" ++ n ++ "\x27 is not defined"
  | .exc m => m

/-- The Python names bound by the import statements of the file:
`from transformers import AutoModelForCausalLM, AutoTokenizer` and
`import torch` (lines 18-19, inside the try block), and `import sys`
(lines 89 and 96, inside the main loop).  The Java header line
`import java.util.Random;` (line 8) is not a Python
`import random` statement and binds no Python name `random`. -/
def importedNames : List String :=
  ["AutoModelForCausalLM", "AutoTokenizer", "torch", "sys"]

/-- Whether the Python name `random` is bound anywhere in the file. -/
def randomDefined : Bool := importedNames.contains "random"

/-- The fixed list of canned responses (lines 32-53). -/
def responses : List String :=
  [ "Hello there!"
  , "How can I help you today?"
  , "That\x27s interesting!"
  , "Tell me more about that."
  , "I understand."
  , "That\x27s a good point."
  , "I\x27m not sure I follow."
  , "Could you explain that differently?"
  , "Let me think about that."
  , "I appreciate your perspective."
  , "What else would you like to talk about?"
  , "I\x27m here to chat whenever you need."
  , "That sounds challenging."
  , "I\x27m glad to hear that!"
  , "I\x27m sorry to hear that."
  , "That must be difficult."
  , "Congratulations!"
  , "That\x27s wonderful news!"
  , "I\x27m learning new things every day."
  , "Thanks for sharing that with me."
  ]

/-- The global environment the loop runs in: whether DialoGPT was
imported and loaded (`has_dialogpt`), whether the name `random` is bound
(in the actual file this is `randomDefined`, i.e. `false`), and the
external model pipeline `tokenizer.encode` / `model.generate` /
`tokenizer.decode`, abstracted as a function from the input text to
either the decoded response string or the message of a raised
exception. -/
structure Env where
  has_dialogpt : Bool
  randomBound : Bool
  modelReply : String → Except String String

/-- `random.choice(responses)`: evaluating the unbound name `random`
raises `NameError`; otherwise an element of `responses` is returned,
`k` being the random draw. -/
def random_choice (env : Env) (k : Nat) : Except PyErr String :=
  if env.randomBound then
    Except.ok (responses.get ⟨k % responses.length, Nat.mod_lt k (by decide)⟩)
  else
    Except.error (PyErr.nameError "random")

/-- Outcome of one call to `generate_response`: the lines it printed to
stdout, and either the value it returned (`Except.ok`) or the exception
it let propagate to the caller (`Except.error`). -/
structure GenResult where
  printed : List String
  result : Except PyErr String

/-- `generate_response` (lines 55-78).  With the model available it calls
the pipeline inside a `try`; an empty decoded response falls back to
`random.choice(responses)` (line 73); any exception in the `try` is
caught, a diagnostic is printed, and `random.choice(responses)` is
returned (lines 74-76) — an exception raised by that handler itself
propagates.  Without the model it returns `random.choice(responses)`
directly (line 78). -/
def generate_response (env : Env) (k : Nat) (input_text : String) : GenResult :=
  if env.has_dialogpt then
    match env.modelReply input_text with
    | Except.ok response =>
        if response = "" then
          match random_choice env k with
          | Except.ok r => ⟨[], Except.ok r⟩
          | Except.error e =>
              ⟨["Error generating DialoGPT response: " ++ e.msg], random_choice env k⟩
        else ⟨[], Except.ok response⟩
    | Except.error m =>
        ⟨["Error generating DialoGPT response: " ++ m], random_choice env k⟩
  else ⟨[], random_choice env k⟩

/-- The single line the loop body prints for one input line: the response
returned by `generate_response` (line 88), or the `Error: ...` message
printed by the `except Exception` handler (line 95) when
`generate_response` raised. -/
def reply (env : Env) (k : Nat) (line : String) : String :=
  match (generate_response env k line).result with
  | Except.ok r => r
  | Except.error e => "Error: " ++ e.msg

/-- All stdout lines of one loop iteration: any diagnostic printed inside
`generate_response`, then the loop body's single reply line. -/
def iterPrints (env : Env) (k : Nat) (line : String) : List String :=
  (generate_response env k line).printed ++ [reply env k line]

/-- The loop's reply lines, one per input line; the first argument of `k`
is the iteration index feeding the random draws. -/
def replies (env : Env) (k : Nat → Nat) : Nat → List String → List String
  | _, [] => []
  | i, line :: rest => reply env (k i) line :: replies env k (i + 1) rest

/-- All stdout lines printed by the loop over the whole input stream. -/
def loopOut (env : Env) (k : Nat → Nat) : Nat → List String → List String
  | _, [] => []
  | i, line :: rest => iterPrints env (k i) line ++ loopOut env k (i + 1) rest

/-- Fuel-indexed main loop: each unit of fuel pays for one `input()`
call.  Reading from an exhausted stream raises `EOFError`, which the
`except EOFError` branch turns into `break` (lines 91-93); with no fuel
left the loop has not yet terminated (`none`). -/
def loopFuel (env : Env) (k : Nat → Nat) :
    Nat → Nat → List String → Option (List String)
  | 0, _, _ => none
  | _ + 1, _, [] => some []
  | f + 1, i, line :: rest =>
      (loopFuel env k f (i + 1) rest).map (fun o => iterPrints env (k i) line ++ o)

/-- Outcome of the startup try block (lines 17-29): the `transformers`
or `torch` import raised `ImportError`; or loading the pretrained
tokenizer or model raised some other exception with message `m`; or
everything succeeded. -/
inductive Startup where
  | importError
  | loadError (m : String)
  | success
deriving DecidableEq

/-- Events of a program trace: a completed model load, a line read from
stdin, a line printed to stdout. -/
inductive Ev where
  | load
  | readL (s : String)
  | printL (s : String)
deriving DecidableEq

/-- Whether an event is a model load. -/
def Ev.isLoad : Ev → Bool
  | .load => true
  | _ => false

/-- Whether an event is a read from stdin. -/
def Ev.isRead : Ev → Bool
  | .readL _ => true
  | _ => false

/-- Load/print events of startup.  On `ImportError` only the fallback
banner is printed; on any other load exception the program aborts with
no completed load and no banner; on success the model is loaded once and
the banner printed (lines 22-29). -/
def startupTrace : Startup → List Ev
  | .importError => [Ev.printL "ChatBot initialized with basic response system"]
  | .loadError _ => []
  | .success => [Ev.load, Ev.printL "ChatBot initialized with DialoGPT"]

/-- The environment the main loop starts with, or the uncaught startup
exception that aborts the program: the `except ImportError` clause
(line 27) catches only `ImportError`. -/
def startupEnv (s : Startup) (mr : String → Except String String) :
    Except String Env :=
  match s with
  | .importError => Except.ok ⟨false, randomDefined, mr⟩
  | .loadError m => Except.error m
  | .success => Except.ok ⟨true, randomDefined, mr⟩

/-- Trace of the main loop: one read event per input line followed by
that iteration's print events; the final `input()` on the closed stream
raises `EOFError` and the loop breaks without further events. -/
def loopTrace (env : Env) (k : Nat → Nat) : Nat → List String → List Ev
  | _, [] => []
  | i, line :: rest =>
      Ev.readL line :: ((iterPrints env (k i) line).map Ev.printL
        ++ loopTrace env k (i + 1) rest)

/-- The loop part of the whole-program trace: empty when startup aborted,
otherwise the loop's trace under the startup environment. -/
def loopPart (s : Startup) (mr : String → Except String String)
    (k : Nat → Nat) (lines : List String) : List Ev :=
  match startupEnv s mr with
  | Except.error _ => []
  | Except.ok env => loopTrace env k 0 lines

/-- Full program trace: startup events, then (unless startup aborted)
the main loop's events. -/
def programTrace (s : Startup) (mr : String → Except String String)
    (k : Nat → Nat) (lines : List String) : List Ev :=
  startupTrace s ++ loopPart s mr k lines

/-! ## Helper lemmas -/

/-- A non-empty string has positive length. -/
theorem str_length_pos (s : String) (h : s ≠ "") : 0 < s.length := by
  cases s with
  | mk data =>
    cases data with
    | nil => exact absurd rfl h
    | cons a t => simp [String.length]

/-- Whatever `random.choice(responses)` returns is an element of
`responses`. -/
theorem random_choice_mem (env : Env) (k : Nat) (s : String)
    (h : random_choice env k = Except.ok s) : s ∈ responses := by
  unfold random_choice at h
  split at h
  · cases h
    exact List.get_mem responses _ _
  · cases h

/-- If `random.choice` raises, the exception is the `NameError` for the
unbound name `random`, and this happens exactly when `random` is not
bound. -/
theorem random_choice_error (env : Env) (k : Nat)
    (h : env.randomBound = false) :
    random_choice env k = Except.error (PyErr.nameError "random") := by
  unfold random_choice
  rw [h]
  rfl

/-- Any value `generate_response` returns is either the model's
(non-empty) decoded response or an element of `responses`. -/
theorem generate_response_ok_cases (env : Env) (k : Nat) (input r : String)
    (h : (generate_response env k input).result = Except.ok r) :
    (env.modelReply input = Except.ok r ∧ r ≠ "") ∨ r ∈ responses := by
  unfold generate_response at h
  by_cases hd : env.has_dialogpt = true
  · rw [if_pos hd] at h
    cases hm : env.modelReply input with
    | ok response =>
        rw [hm] at h
        simp only at h
        by_cases he : response = ""
        · rw [if_pos he] at h
          cases hc : random_choice env k with
          | ok r2 =>
              rw [hc] at h
              cases h
              exact Or.inr (random_choice_mem env k _ hc)
          | error e =>
              rw [hc] at h
              simp only at h
              exact Except.noConfusion h
        · rw [if_neg he] at h
          cases h
          exact Or.inl ⟨rfl, he⟩
    | error m =>
        rw [hm] at h
        simp only at h
        exact Or.inr (random_choice_mem env k _ h)
  · rw [if_neg hd] at h
    simp only at h
    exact Or.inr (random_choice_mem env k _ h)

/-- Every canned response in the fixed list is non-empty. -/
theorem responses_nonempty : ∀ s ∈ responses, s ≠ "" := by decide

/-- The loop prints one reply line per input line. -/
theorem replies_length (env : Env) (k : Nat → Nat) :
    ∀ (i : Nat) (lines : List String),
      (replies env k i lines).length = lines.length := by
  intro i lines
  induction lines generalizing i with
  | nil => rfl
  | cons a t ih => simp [replies, ih]

/-- The reply at position `j` depends only on the line at position `j`
(and the random draw for that iteration). -/
theorem replies_get? (env : Env) (k : Nat → Nat) :
    ∀ (lines : List String) (i j : Nat),
      (replies env k i lines).get? j
        = (lines.get? j).map (fun s => reply env (k (i + j)) s) := by
  intro lines
  induction lines with
  | nil => intro i j; cases j <;> rfl
  | cons a t ih =>
      intro i j
      cases j with
      | zero => simp [replies]
      | succ j =>
          have harith : i + 1 + j = i + (j + 1) := by omega
          have hstep := ih (i + 1) j
          rw [harith] at hstep
          exact hstep

/-- With fuel for every line plus the final EOF read, the loop finishes
and prints exactly `loopOut`. -/
theorem loopFuel_complete (env : Env) (k : Nat → Nat) :
    ∀ (lines : List String) (i : Nat),
      loopFuel env k (lines.length + 1) i lines = some (loopOut env k i lines) := by
  intro lines
  induction lines with
  | nil => intro i; rfl
  | cons a t ih => intro i; simp [loopFuel, loopOut, ih (i + 1)]

/-- With fuel only for the input lines themselves the loop has not yet
exited: it still has to attempt the read that raises `EOFError`. -/
theorem loopFuel_short (env : Env) (k : Nat → Nat) :
    ∀ (lines : List String) (i : Nat),
      loopFuel env k lines.length i lines = none := by
  intro lines
  induction lines with
  | nil => intro i; rfl
  | cons a t ih => intro i; simp [loopFuel, ih (i + 1)]

/-- The main loop's trace contains no model-load event. -/
theorem loopTrace_no_load (env : Env) (k : Nat → Nat) :
    ∀ (lines : List String) (i : Nat),
      (loopTrace env k i lines).all (fun e => !e.isLoad) = true := by
  intro lines
  induction lines with
  | nil => intro i; rfl
  | cons a t ih =>
      intro i
      simp [loopTrace, List.all_append, List.all_map, Ev.isLoad]
      intro x hx
      have hall := List.all_eq_true.mp (ih (i + 1)) x hx
      simpa [Ev.isLoad] using hall

/-! ## Claim theorems -/

/-- C1: for every line read from standard input the main loop produces
exactly one reply line (so the replies are in bijection with the input
lines), and with fuel for each line plus one final read the loop
completes, having printed exactly the iterations' output; the final read
on the closed stream is the `EOFError` that ends the loop. -/
theorem mainLoop_one_reply_per_line (env : Env) (k : Nat → Nat)
    (lines : List String) :
    (replies env k 0 lines).length = lines.length ∧
    loopFuel env k (lines.length + 1) 0 lines = some (loopOut env k 0 lines) :=
  ⟨replies_length env k 0 lines, loopFuel_complete env k lines 0⟩

/-- C2 (counterexample to the fallback half): with the model unavailable
(`has_dialogpt = false`) and `random` bound exactly as in the file
(`randomDefined`, i.e. unbound), `generate_response` on input "hello"
does not return a canned response: it raises
`NameError: name 'random' is not defined`. -/
theorem fallback_mode_raises_nameError_not_canned :
    (generate_response ⟨false, randomDefined, fun _ => Except.ok ""⟩ 0 "hello").result
      = Except.error (PyErr.nameError "random") := rfl

/-- C3 (counterexample): with the model available and the pipeline
raising an exception "boom" on input "hello", the handler prints its
diagnostic but then itself raises `NameError` from
`random.choice(responses)`, which propagates to the caller instead of a
canned response being returned. -/
theorem model_error_handler_raises_nameError :
    (generate_response ⟨true, randomDefined, fun _ => Except.error "boom"⟩ 0 "hello").printed
      = ["Error generating DialoGPT response: boom"] ∧
    (generate_response ⟨true, randomDefined, fun _ => Except.error "boom"⟩ 0 "hello").result
      = Except.error (PyErr.nameError "random") :=
  ⟨rfl, rfl⟩

/-- C4: in every mode (any environment: model available or not, `random`
bound or not, pipeline succeeding or raising), the single line the loop
writes to standard output for an input line is a non-empty string. -/
theorem reply_always_nonempty (env : Env) (k : Nat) (line : String) :
    0 < (reply env k line).length := by
  unfold reply
  cases hr : (generate_response env k line).result with
  | ok r =>
      rcases generate_response_ok_cases env k line r hr with ⟨_, hne⟩ | hmem
      · exact str_length_pos r hne
      · exact str_length_pos r (responses_nonempty r hmem)
  | error e =>
      rw [String.length_append]
      have h7 : ("Error: ").length = 7 := rfl
      omega

/-- C5: no Python `import random` statement exists in the file
(`randomDefined = false`), so in fallback mode every call to
`generate_response` raises `NameError: name 'random' is not defined` and
the main loop's handler prints the corresponding `Error: ...` line
instead of a canned response. -/
theorem no_import_random_error_reply :
    randomDefined = false ∧
    ∀ (env : Env) (k : Nat) (line : String),
      env.randomBound = randomDefined → env.has_dialogpt = false →
        (generate_response env k line).result
            = Except.error (PyErr.nameError "random") ∧
        reply env k line = "Error: name \x27random\x27 is not defined" := by
  refine ⟨rfl, ?_⟩
  intro env k line hrb hd
  have hrb2 : env.randomBound = false := hrb
  have hres : (generate_response env k line).result
      = Except.error (PyErr.nameError "random") := by
    simp [generate_response, hd]
    exact random_choice_error env k hrb2
  refine ⟨hres, ?_⟩
  unfold reply
  rw [hres]
  rfl

/-- Witness for C5 at a concrete environment and input line. -/
theorem no_import_random_error_reply_witness :
    (generate_response ⟨false, false, fun _ => Except.ok ""⟩ 0 "hello").result
        = Except.error (PyErr.nameError "random") ∧
    reply ⟨false, false, fun _ => Except.ok ""⟩ 0 "hello"
        = "Error: name \x27random\x27 is not defined" :=
  no_import_random_error_reply.2 ⟨false, false, fun _ => Except.ok ""⟩ 0 "hello"
    rfl rfl

/-- C6: the canned list is a fixed constant of the program, and any
canned reply — any value of `random.choice(responses)`, and in
particular any value `generate_response` returns in fallback mode — is
an element of that fixed list. -/
theorem canned_replies_fixed_list (env : Env) (k : Nat) :
    (∀ s, random_choice env k = Except.ok s → s ∈ responses) ∧
    (∀ input r, env.has_dialogpt = false →
        (generate_response env k input).result = Except.ok r → r ∈ responses) := by
  constructor
  · intro s h
    exact random_choice_mem env k s h
  · intro input r hd h
    simp [generate_response, hd] at h
    exact random_choice_mem env k r h

/-- Witness for C6: with `random` bound, draw 2 in fallback mode yields
the third canned response, an element of the fixed list. -/
theorem canned_replies_fixed_list_witness :
    random_choice ⟨false, true, fun _ => Except.ok ""⟩ 2
        = Except.ok "That\x27s interesting!" ∧
    "That\x27s interesting!" ∈ responses :=
  ⟨rfl, (canned_replies_fixed_list ⟨false, true, fun _ => Except.ok ""⟩ 2).1
    "That\x27s interesting!" rfl⟩

/-- C7: the reply at position `i` depends only on the input line at
position `i` (and the fixed environment and that iteration's random
draw): two runs whose streams agree at position `i` produce the same
reply at position `i`, whatever their earlier lines were. -/
theorem reply_independent_of_history (env : Env) (k : Nat → Nat)
    (l₁ l₂ : List String) (i : Nat) (h : l₁.get? i = l₂.get? i) :
    (replies env k 0 l₁).get? i = (replies env k 0 l₂).get? i := by
  rw [replies_get? env k l₁ 0 i, replies_get? env k l₂ 0 i, h]

/-- Witness for C7: streams `["a", "b"]` and `["c", "b"]` agree at
position 1 and get the same reply there. -/
theorem reply_independent_of_history_witness :
    (replies ⟨false, false, fun _ => Except.ok ""⟩ (fun _ => 0) 0 ["a", "b"]).get? 1
      = (replies ⟨false, false, fun _ => Except.ok ""⟩ (fun _ => 0) 0 ["c", "b"]).get? 1 :=
  reply_independent_of_history ⟨false, false, fun _ => Except.ok ""⟩ (fun _ => 0)
    ["a", "b"] ["c", "b"] 1 rfl

/-- C8: the whole-program trace splits into a startup part containing at
most one model-load event and no stdin read, followed by the loop part
containing no load event at all: the model is loaded at most once, at
startup, and never (re)loaded once the read-generate-print loop runs. -/
theorem model_loaded_at_most_once_at_startup (s : Startup)
    (mr : String → Except String String) (k : Nat → Nat) (lines : List String) :
    ∃ st lp, programTrace s mr k lines = st ++ lp ∧
      st.countP Ev.isLoad ≤ 1 ∧
      st.all (fun e => !e.isRead) = true ∧
      lp.all (fun e => !e.isLoad) = true := by
  refine ⟨startupTrace s, loopPart s mr k lines, rfl, ?_, ?_, ?_⟩
  · cases s <;> simp [startupTrace, Ev.isLoad]
  · cases s <;> simp [startupTrace, Ev.isRead]
  · unfold loopPart
    cases hse : startupEnv s mr with
    | error m => rfl
    | ok env => exact loopTrace_no_load env k lines 0

/-- C9: on a finite input stream the loop terminates exactly when the
stream is exhausted: fuel for each line plus the final `EOFError` read
completes the loop, while fuel for the lines alone does not — the only
exit is the `EOFError` branch after all lines are consumed. -/
theorem mainLoop_terminates_on_finite_input (env : Env) (k : Nat → Nat)
    (lines : List String) :
    (∃ out, loopFuel env k (lines.length + 1) 0 lines = some out) ∧
    loopFuel env k lines.length 0 lines = none :=
  ⟨⟨loopOut env k 0 lines, loopFuel_complete env k lines 0⟩,
    loopFuel_short env k lines 0⟩

/-- C10: startup ends in fallback mode exactly when the import raised
`ImportError`; it aborts the program exactly when loading the tokenizer
or model raised any other exception, and in that case the program trace
is empty — the read-generate-print loop never starts. -/
theorem only_importError_enables_fallback (s : Startup)
    (mr : String → Except String String) (k : Nat → Nat) (lines : List String) :
    ((∃ env, startupEnv s mr = Except.ok env ∧ env.has_dialogpt = false)
        ↔ s = Startup.importError) ∧
    ((∃ m, startupEnv s mr = Except.error m) ↔ (∃ m, s = Startup.loadError m)) ∧
    (∀ m, s = Startup.loadError m → programTrace s mr k lines = []) := by
  cases s with
  | importError =>
      refine ⟨⟨fun _ => rfl, fun _ => ⟨⟨false, randomDefined, mr⟩, rfl, rfl⟩⟩, ?_, ?_⟩
      · constructor
        · rintro ⟨m, hm⟩
          exact Except.noConfusion hm
        · rintro ⟨m, hm⟩
          exact Startup.noConfusion hm
      · intro m hm
        exact Startup.noConfusion hm
  | loadError m0 =>
      refine ⟨?_, ⟨fun _ => ⟨m0, rfl⟩, fun _ => ⟨m0, rfl⟩⟩, ?_⟩
      · constructor
        · rintro ⟨env, he, hd⟩
          exact Except.noConfusion he
        · intro h
          exact Startup.noConfusion h
      · intro m hm
        rfl
  | success =>
      refine ⟨?_, ?_, ?_⟩
      · constructor
        · rintro ⟨env, he, hd⟩
          cases he
          exact Bool.noConfusion hd
        · intro h
          exact Startup.noConfusion h
      · constructor
        · rintro ⟨m, hm⟩
          exact Except.noConfusion hm
        · rintro ⟨m, hm⟩
          exact Startup.noConfusion hm
      · intro m hm
        exact Startup.noConfusion hm

/-- Witness for C10: a startup load failure yields an empty program
trace — the loop never runs. -/
theorem only_importError_enables_fallback_witness :
    programTrace (Startup.loadError "boom") (fun _ => Except.ok "") (fun _ => 0) ["hi"]
      = [] :=
  (only_importError_enables_fallback (Startup.loadError "boom")
    (fun _ => Except.ok "") (fun _ => 0) ["hi"]).2.2 "boom" rfl

end Chatbot
